import Mathlib

/-!
Verification development for the openweather-mcp server (`src/server.ts`,
`src/types.ts`).  The definitions below are a shallow embedding of the
TypeScript source: JavaScript numbers are modelled as rationals (`ℚ`),
records keyed by strings as insertion-ordered association lists (matching
JavaScript object key order for non-index string keys), and the fallible
handler bodies as `Except`-valued functions wrapped by the `try`/`catch`
of the tool handler.
-/

namespace OpenWeatherMcp

/-- `Coord` from `types.ts`: `{ lat: number; lon: number }`. -/
structure Coord where
  lat : ℚ
  lon : ℚ
  deriving DecidableEq, Repr

/-- The `main` field of `ForecastItem` in `types.ts`. -/
structure MainData where
  temp : ℚ
  temp_min : ℚ
  temp_max : ℚ
  pressure : ℚ
  humidity : ℚ
  deriving DecidableEq, Repr

/-- One element of the `weather` array of `ForecastItem` in `types.ts`. -/
structure WeatherEntry where
  id : ℤ
  main : String
  description : String
  icon : String
  deriving DecidableEq, Repr

/-- The `clouds` field of `ForecastItem` in `types.ts`. -/
structure CloudsData where
  all : ℚ
  deriving DecidableEq, Repr

/-- The `wind` field of `ForecastItem` in `types.ts`. -/
structure WindData where
  speed : ℚ
  deg : ℚ
  deriving DecidableEq, Repr

/-- `ForecastItem` from `types.ts`: one upstream 3-hour sample. -/
structure ForecastItem where
  dt : ℤ
  dt_txt : String
  main : MainData
  weather : List WeatherEntry
  clouds : CloudsData
  wind : WindData
  deriving DecidableEq, Repr

/-- `City` from `types.ts`. -/
structure City where
  id : ℤ
  name : String
  coord : Coord
  country : String
  timezone : ℤ
  deriving DecidableEq, Repr

/-- `ForecastResponse` from `types.ts`.  `message` is declared `number`
there, but the error payloads this field is read from
(`data.message || "Failed to fetch weather data"`, used in string
position) carry a string message, so it is modelled as a string. -/
structure ForecastResponse where
  cod : String
  message : String
  cnt : ℤ
  list : List ForecastItem
  city : City
  deriving DecidableEq, Repr

/-- The per-date accumulator of the aggregation fold in `server.ts`:
`{ temps: number[]; descs: string[]; min: number; max: number }`. -/
structure Bucket where
  temps : List ℚ
  descs : List String
  min : ℚ
  max : ℚ
  deriving DecidableEq, Repr

/-- `item.dt_txt.split(" ")[0]`: the characters of the textual timestamp
preceding the first space (the whole string when no space occurs). -/
def dateOf (it : ForecastItem) : String :=
  ⟨it.dt_txt.data.takeWhile (fun c => c ≠ ' ')⟩

/-- The bucket created on first sight of a date:
`{ temps: [], descs: [], min: item.main.temp_min, max: item.main.temp_max }`. -/
def freshBucket (it : ForecastItem) : Bucket :=
  { temps := [], descs := [], min := it.main.temp_min, max := it.main.temp_max }

/-- The body of the `forEach` after the bucket exists: push `temp`, push
the first weather entry's description when the `weather` array is
non-empty, and update the running `min`/`max` with this sample's
`temp_min`/`temp_max`. -/
def updateBucket (b : Bucket) (it : ForecastItem) : Bucket :=
  { temps := b.temps ++ [it.main.temp]
    descs := b.descs ++ (match it.weather.head? with
      | some w => [w.description]
      | none => [])
    min := Min.min b.min it.main.temp_min
    max := Max.max b.max it.main.temp_max }

/-- First-match lookup in the insertion-ordered record,
modelling `forecastByDay[date]`. -/
def findBucket (date : String) : List (String × Bucket) → Option Bucket
  | [] => none
  | (k, b) :: rest => if k = date then some b else findBucket date rest

/-- Replace the (unique) entry for `date` by its update with `it`. -/
def updateAt (date : String) (it : ForecastItem) :
    List (String × Bucket) → List (String × Bucket)
  | [] => []
  | (k, b) :: rest =>
      if k = date then (k, updateBucket b it) :: rest
      else (k, b) :: updateAt date it rest

/-- One iteration of the `forEach` over `data.list`: create the bucket if
the date key is absent (and immediately apply the push/min/max statements
to it), otherwise update the existing bucket in place. -/
def insertItem (rec : List (String × Bucket)) (it : ForecastItem) :
    List (String × Bucket) :=
  let date := dateOf it
  if (findBucket date rec).isSome then updateAt date it rec
  else rec ++ [(date, updateBucket (freshBucket it) it)]

/-- The whole fold building `forecastByDay` from `data.list`. -/
def forecastByDay (items : List ForecastItem) : List (String × Bucket) :=
  items.foldl insertItem []

/-- The samples of `items` that fall into the bucket keyed `date`. -/
def itemsOn (date : String) (items : List ForecastItem) : List ForecastItem :=
  items.filter (fun it => dateOf it = date)

/-- The bucket a run of same-dated samples produces: `none` for no
samples, otherwise the fold of `updateBucket` from the first sample's
fresh bucket (to which the first sample is also applied, as in the
source). -/
def bucketOf : List ForecastItem → Option Bucket
  | [] => none
  | it :: rest => some (rest.foldl updateBucket (updateBucket (freshBucket it) it))

/-- `Math.round` on exact values: half-up rounding, `⌊x + 1/2⌋`. -/
def jsRound (q : ℚ) : ℤ := ⌊q + 1 / 2⌋

/-- `const avg = Math.round(day.temps.reduce((a, b) => a + b, 0) / day.temps.length)`. -/
def dayAvg (b : Bucket) : ℤ := jsRound (b.temps.sum / (b.temps.length : ℚ))

/-- `const desc = day.descs[0] || "clear sky"`: JavaScript truthiness, so
both a missing first element and an empty-string first element fall back. -/
def dayDesc (b : Bucket) : String :=
  match b.descs.head? with
  | some d => if d = "" then "clear sky" else d
  | none => "clear sky"

/-- One rendered line of the forecast list. -/
def formatDay (date : String) (b : Bucket) : String :=
  "📅 " ++ date ++ ": 🌡️ Avg " ++ toString (dayAvg b) ++ "°C (Min " ++
    toString (jsRound b.min) ++ "°C, Max " ++ toString (jsRound b.max) ++
    "°C), 🌥️ " ++ dayDesc b

/-- `Object.keys(forecastByDay).sort().slice(0, days)`: the date keys in
lexicographic order, capped at `days`. -/
def selectedDates (items : List ForecastItem) (days : ℕ) : List String :=
  (List.insertionSort (fun a b => a ≤ b) ((forecastByDay items).map Prod.fst)).take days

/-- The `forecastList` array of rendered per-day lines. -/
def forecastLines (items : List ForecastItem) (days : ℕ) : List String :=
  (selectedDates items days).map
    (fun date => formatDay date ((findBucket date (forecastByDay items)).getD ⟨[], [], 0, 0⟩))

/-- The success `resultText`.  `data.city` is always present per
`types.ts`, so the `data.city ? … : location` conditional always takes
its first branch; the `location` argument is kept for fidelity to the
source signature. -/
def renderForecast (data : ForecastResponse) (location : String) (days : ℕ) : String :=
  let locationName := data.city.name ++ ", " ++ data.city.country
  "🌤️ Weather forecast for " ++ locationName ++ ":\n" ++
    String.intercalate "\n" (forecastLines data.list days)

/-- `const location = country ? \x7bcity\x7d,\x7bcountry\x7d : city`. -/
def mkLocation (city : String) (country : Option String) : String :=
  match country with
  | some c => city ++ "," ++ c
  | none => city

/-- `const intervals = Math.min(days * 8, 40)`. -/
def intervals (days : ℕ) : ℕ := Nat.min (days * 8) 40

/-- The destructuring default `const \x7b city, country, days = 3 \x7d = args`. -/
def handlerDays (days : Option ℕ) : ℕ := days.getD 3

/-- `response.ok`: the HTTP status lies in the 2xx range. -/
def responseOk (status : ℕ) : Bool := decide (200 ≤ status) && decide (status ≤ 299)

/-- The outcome of the primary `fetch`: either the fetch (or the
subsequent `response.json()`) throws, or an HTTP response arrives whose
body is either a JSON parse failure or a parsed `ForecastResponse`. -/
inductive HttpOutcome where
  | transportFailure (msg : String)
  | httpResponse (status : ℕ) (statusText : String) (body : Except String ForecastResponse)
  deriving Repr

/-- The outcome of the fallback geocoding `fetch` of the first handler
variant: a thrown transport or parse error, or a list of coordinates. -/
inductive GeoOutcome where
  | geoFailure (msg : String)
  | geoOk (entries : List Coord)
  deriving DecidableEq, Repr

/-- A content block of a `CallToolResult`: either a text block or the
UI resource block appended by the first handler variant. -/
inductive ContentBlock where
  | text (t : String)
  | uiResource (uri : String) (iframeUrl : String)
  deriving DecidableEq, Repr

/-- `CallToolResult`: the protocol-level result, always returned
successfully by the handler. -/
structure CallToolResult where
  content : List ContentBlock
  deriving DecidableEq, Repr

/-- The weather-map iframe URL of the UI resource block. -/
def mapUrl (lat lon : ℚ) : String :=
  "https://openweathermap.org/weathermap?basemap=map&cities=true&layer=temp&lat=" ++
    toString lat ++ "&lon=" ++ toString lon ++ "&zoom=10"

/-- The body of the FIRST `getWeatherForecast` handler variant (the one
that checks `data.cod` and appends a UI resource block), as it runs
inside the `try`: `.error` marks a thrown exception reaching the
`catch`. -/
def handlerBody1 (city : String) (country : Option String) (days : ℕ)
    (o : HttpOutcome) (geo : GeoOutcome) : Except String CallToolResult :=
  let location := mkLocation city country
  match o with
  | .transportFailure msg => .error msg
  | .httpResponse status statusText body =>
    if !responseOk status then
      if status = 404 then
        .ok ⟨[.text ("❌ Could not find weather data for " ++ location ++ ".")]⟩
      else if status = 401 then
        .ok ⟨[.text "🔑 Invalid API key."]⟩
      else
        .ok ⟨[.text ("API Error: " ++ statusText)]⟩
    else
      match body with
      | .error msg => .error msg
      | .ok data =>
        if data.cod ≠ "200" then
          .ok ⟨[.text ("Error: " ++
            (if data.message = "" then "Failed to fetch weather data" else data.message))]⟩
        else
          let resultText := renderForecast data location days
          let lat := data.city.coord.lat
          let lon := data.city.coord.lon
          if lat = 0 ∨ lon = 0 then
            match geo with
            | .geoFailure msg => .error msg
            | .geoOk entries =>
              let lat2 := match entries.head? with | some c => c.lat | none => lat
              let lon2 := match entries.head? with | some c => c.lon | none => lon
              .ok ⟨[.text resultText, .uiResource "ui://weather/map" (mapUrl lat2 lon2)]⟩
          else
            .ok ⟨[.text resultText, .uiResource "ui://weather/map" (mapUrl lat lon)]⟩

/-- The FIRST handler variant with its `catch`: a thrown error becomes a
single text block reporting an unexpected error. -/
def handler1 (city : String) (country : Option String) (days : ℕ)
    (o : HttpOutcome) (geo : GeoOutcome) : CallToolResult :=
  match handlerBody1 city country days o geo with
  | .ok r => r
  | .error msg => ⟨[.text ("An unexpected error occurred: " ++ msg)]⟩

/-- The body of the SECOND `getWeatherForecast` handler variant (no
`data.cod` check, no UI resource): it computes `resultText`, with
`.error` marking a thrown exception reaching the `catch`. -/
def handlerBody2 (city : String) (country : Option String) (days : ℕ)
    (o : HttpOutcome) : Except String String :=
  let location := mkLocation city country
  match o with
  | .transportFailure msg => .error msg
  | .httpResponse status statusText body =>
    if !responseOk status then
      if status = 404 then
        .ok ("❌ Could not find weather data for " ++ location ++ ".")
      else if status = 401 then
        .ok "🔑 Invalid API key."
      else
        .ok ("API Error: " ++ statusText)
    else
      match body with
      | .error msg => .error msg
      | .ok data => .ok (renderForecast data location days)

/-- The SECOND handler variant: `resultText` (or the `catch` text) is
returned as the single text content block. -/
def handler2 (city : String) (country : Option String) (days : ℕ)
    (o : HttpOutcome) : CallToolResult :=
  ⟨[.text (match handlerBody2 city country days o with
    | .ok t => t
    | .error msg => "An unexpected error occurred: " ++ msg)]⟩

/-- The text of the first content block (the text the client reads). -/
def firstText (r : CallToolResult) : String :=
  match r.content with
  | .text t :: _ => t
  | _ => ""

/-- A JSON value arriving for the `days` argument before validation. -/
inductive JsonValue where
  | num (q : ℚ)
  | str (s : String)
  | boolVal (b : Bool)
  | nullVal
  deriving DecidableEq, Repr

/-- The zod schema for `days`:
`z.number().min(1).max(5).optional().default(3)`.  `none` models an
absent field (defaulted), a `some` result is the value handed to the
handler, and a `none` result is a schema rejection.  Note the chain has
no `.int()` step. -/
def parseDays : Option JsonValue → Option ℚ
  | none => some 3
  | some (.num q) => if 1 ≤ q ∧ q ≤ 5 then some q else none
  | some (.str _) => none
  | some (.boolVal _) => none
  | some .nullVal => none

/-! ### Lemmas about the aggregation fold -/

theorem findBucket_updateAt (d k : String) (it : ForecastItem) :
    ∀ rec : List (String × Bucket),
      findBucket d (updateAt k it rec) =
        if k = d then (findBucket d rec).map (fun b => updateBucket b it)
        else findBucket d rec
  | [] => by by_cases h : k = d <;> simp [updateAt, findBucket, h]
  | (k', b') :: rest => by
    by_cases hk : k' = k
    · subst hk
      by_cases hd : k' = d
      · subst hd
        simp [updateAt, findBucket]
      · simp [updateAt, findBucket, hd]
    · by_cases hd : k' = d
      · subst hd
        have hkd : ¬ k = k' := fun h => hk h.symm
        simp [updateAt, findBucket, hk, hkd]
      · simp only [updateAt, if_neg hk, findBucket, if_neg hd]
        exact findBucket_updateAt d k it rest

theorem findBucket_append (d k : String) (b : Bucket) :
    ∀ rec : List (String × Bucket),
      findBucket d (rec ++ [(k, b)]) =
        match findBucket d rec with
        | some b' => some b'
        | none => if k = d then some b else none
  | [] => by simp [findBucket]
  | (k', b') :: rest => by
    by_cases hd : k' = d
    · simp [findBucket, hd]
    · simp only [List.cons_append, findBucket, if_neg hd]
      exact findBucket_append d k b rest

theorem keys_updateAt (k : String) (it : ForecastItem) :
    ∀ rec : List (String × Bucket),
      (updateAt k it rec).map Prod.fst = rec.map Prod.fst
  | [] => rfl
  | (k', b') :: rest => by
    by_cases hk : k' = k
    · simp [updateAt, hk]
    · simp [updateAt, hk, keys_updateAt k it rest]

theorem findBucket_isSome_iff (d : String) :
    ∀ rec : List (String × Bucket),
      (findBucket d rec).isSome ↔ d ∈ rec.map Prod.fst
  | [] => by simp [findBucket]
  | (k', b') :: rest => by
    by_cases hd : k' = d
    · simp [findBucket, hd]
    · simp [findBucket, hd, findBucket_isSome_iff d rest, Ne.symm hd]

theorem itemsOn_cons (d : String) (it : ForecastItem) (items : List ForecastItem) :
    itemsOn d (it :: items) =
      if dateOf it = d then it :: itemsOn d items else itemsOn d items := by
  by_cases h : dateOf it = d <;> simp [itemsOn, h]

theorem findBucket_insertItem (d : String) (it : ForecastItem)
    (rec : List (String × Bucket)) :
    findBucket d (insertItem rec it) =
      if dateOf it = d then
        match findBucket d rec with
        | some b => some (updateBucket b it)
        | none => some (updateBucket (freshBucket it) it)
      else findBucket d rec := by
  rcases ho : findBucket (dateOf it) rec with _ | b0
  · simp only [insertItem, ho, Option.isSome_none, Bool.false_eq_true, if_false]
    rw [findBucket_append]
    by_cases hd : dateOf it = d
    · subst hd
      simp [ho]
    · rcases h2 : findBucket d rec with _ | b <;> simp [hd, h2]
  · simp only [insertItem, ho, Option.isSome_some, if_true]
    rw [findBucket_updateAt]
    by_cases hd : dateOf it = d
    · subst hd
      simp [ho]
    · simp [hd]

theorem findBucket_foldl (d : String) :
    ∀ (items : List ForecastItem) (rec : List (String × Bucket)),
      findBucket d (items.foldl insertItem rec) =
        match findBucket d rec with
        | some b => some ((itemsOn d items).foldl updateBucket b)
        | none => bucketOf (itemsOn d items)
  | [], rec => by
    rcases h : findBucket d rec with _ | b <;> simp [h, itemsOn, bucketOf]
  | it :: rest, rec => by
    rw [List.foldl_cons, findBucket_foldl d rest (insertItem rec it),
      findBucket_insertItem, itemsOn_cons]
    by_cases hd : dateOf it = d
    · simp only [if_pos hd]
      rcases findBucket d rec with _ | b
      · simp [bucketOf]
      · simp
    · simp only [if_neg hd]

/-- The key identity of the aggregation: looking a date up in
`forecastByDay` yields exactly the bucket folded from the samples whose
`dt_txt` date prefix is that date, in arrival order. -/
theorem findBucket_forecastByDay (d : String) (items : List ForecastItem) :
    findBucket d (forecastByDay items) = bucketOf (itemsOn d items) := by
  rw [forecastByDay, findBucket_foldl]
  rfl

theorem foldl_updateBucket_temps :
    ∀ (l : List ForecastItem) (b : Bucket),
      (l.foldl updateBucket b).temps = b.temps ++ l.map (fun it => it.main.temp)
  | [], b => by simp
  | it :: rest, b => by
    rw [List.foldl_cons, foldl_updateBucket_temps rest]
    simp [updateBucket]

theorem foldl_updateBucket_descs :
    ∀ (l : List ForecastItem) (b : Bucket),
      (l.foldl updateBucket b).descs =
        b.descs ++ l.filterMap (fun it => (it.weather.head?).map (fun w => w.description))
  | [], b => by simp
  | it :: rest, b => by
    rw [List.foldl_cons, foldl_updateBucket_descs rest]
    rcases h : it.weather.head? with _ | w <;>
      simp [updateBucket, List.filterMap_cons, h]

theorem foldl_updateBucket_min :
    ∀ (l : List ForecastItem) (b : Bucket),
      (l.foldl updateBucket b).min =
        (l.map (fun it => it.main.temp_min)).foldl Min.min b.min
  | [], b => by simp
  | it :: rest, b => by
    rw [List.foldl_cons, foldl_updateBucket_min rest]
    simp [updateBucket]

theorem foldl_updateBucket_max :
    ∀ (l : List ForecastItem) (b : Bucket),
      (l.foldl updateBucket b).max =
        (l.map (fun it => it.main.temp_max)).foldl Max.max b.max
  | [], b => by simp
  | it :: rest, b => by
    rw [List.foldl_cons, foldl_updateBucket_max rest]
    simp [updateBucket]

/-- The three field characterizations of a looked-up bucket. -/
theorem bucket_fields (items : List ForecastItem) (d : String) (b : Bucket)
    (h : findBucket d (forecastByDay items) = some b) :
    b.temps = (itemsOn d items).map (fun it => it.main.temp)
    ∧ b.descs = (itemsOn d items).filterMap
        (fun it => (it.weather.head?).map (fun w => w.description))
    ∧ ((itemsOn d items).map (fun it => it.main.temp_min)).min? = some b.min
    ∧ ((itemsOn d items).map (fun it => it.main.temp_max)).max? = some b.max := by
  rw [findBucket_forecastByDay] at h
  rcases he : itemsOn d items with _ | ⟨it, rest⟩
  · rw [he] at h; simp [bucketOf] at h
  · rw [he] at h
    simp only [bucketOf, Option.some.injEq] at h
    subst h
    refine ⟨?_, ?_, ?_, ?_⟩
    · rw [foldl_updateBucket_temps]
      simp [updateBucket, freshBucket]
    · rw [foldl_updateBucket_descs]
      rcases hw : it.weather.head? with _ | w <;>
        simp [updateBucket, freshBucket, List.filterMap_cons, hw]
    · rw [foldl_updateBucket_min]
      rw [List.map_cons, List.min?_cons']
      simp [updateBucket, freshBucket]
    · rw [foldl_updateBucket_max]
      rw [List.map_cons, List.max?_cons']
      simp [updateBucket, freshBucket]

theorem keys_insertItem (rec : List (String × Bucket)) (it : ForecastItem) :
    (insertItem rec it).map Prod.fst =
      if (findBucket (dateOf it) rec).isSome then rec.map Prod.fst
      else rec.map Prod.fst ++ [dateOf it] := by
  rcases ho : findBucket (dateOf it) rec with _ | b
  · simp [insertItem, ho]
  · simp [insertItem, ho, keys_updateAt]

theorem nodup_keys_foldl :
    ∀ (items : List ForecastItem) (rec : List (String × Bucket)),
      (rec.map Prod.fst).Nodup → ((items.foldl insertItem rec).map Prod.fst).Nodup
  | [], _, h => h
  | it :: rest, rec, h => by
    rw [List.foldl_cons]
    apply nodup_keys_foldl rest
    rw [keys_insertItem]
    rcases ho : findBucket (dateOf it) rec with _ | b
    · have hmem : dateOf it ∉ rec.map Prod.fst := by
        rw [← findBucket_isSome_iff]
        simp [ho]
      simp [List.nodup_append, h, hmem]
    · simp [ho, h]

/-- The date keys of `forecastByDay` carry no duplicates. -/
theorem nodup_keys (items : List ForecastItem) :
    ((forecastByDay items).map Prod.fst).Nodup :=
  nodup_keys_foldl items [] (by simp)

/-- A date occurs as a key of `forecastByDay` exactly when it is the
date prefix of some sample. -/
theorem mem_keys_iff (items : List ForecastItem) (d : String) :
    d ∈ (forecastByDay items).map Prod.fst ↔ d ∈ items.map dateOf := by
  rw [← findBucket_isSome_iff, findBucket_forecastByDay]
  constructor
  · intro h
    rcases he : itemsOn d items with _ | ⟨it, rest⟩
    · rw [he] at h
      simp [bucketOf] at h
    · have hmem : it ∈ itemsOn d items := by
        rw [he]
        exact List.mem_cons_self it rest
      have hflt := List.mem_filter.mp hmem
      exact List.mem_map.mpr ⟨it, hflt.1, by simpa using hflt.2⟩
  · intro h
    rcases List.mem_map.mp h with ⟨it, hit, hd⟩
    have hmem : it ∈ itemsOn d items := List.mem_filter.mpr ⟨hit, by simp [hd]⟩
    rcases he : itemsOn d items with _ | ⟨it', rest⟩
    · rw [he] at hmem
      simp at hmem
    · simp [bucketOf]

/-- The number of buckets equals the number of distinct dates. -/
theorem length_keys (items : List ForecastItem) :
    ((forecastByDay items).map Prod.fst).length = ((items.map dateOf).dedup).length := by
  have hperm : List.Perm ((forecastByDay items).map Prod.fst) ((items.map dateOf).dedup) := by
    apply List.perm_of_nodup_nodup_toFinset_eq (nodup_keys items) (List.nodup_dedup _)
    apply List.toFinset.ext
    intro x
    rw [List.mem_dedup]
    exact mem_keys_iff items x
  exact hperm.length_eq

theorem selectedDates_length (items : List ForecastItem) (days : ℕ) :
    (selectedDates items days).length =
      Nat.min days (((items.map dateOf).dedup).length) := by
  rw [selectedDates, List.length_take,
    (List.perm_insertionSort (fun a b => a ≤ b) _).length_eq, length_keys]

theorem selectedDates_sorted (items : List ForecastItem) (days : ℕ) :
    List.Sorted (fun a b : String => a ≤ b) (selectedDates items days) :=
  List.Pairwise.sublist (List.take_sublist _ _)
    (List.sorted_insertionSort (fun a b => a ≤ b) _)

/-! ### Numeric helper lemmas -/

theorem jsRound_mono {a b : ℚ} (h : a ≤ b) : jsRound a ≤ jsRound b :=
  Int.floor_le_floor (add_le_add_right h _)

theorem min?_lower_bound {l : List ℚ} {a : ℚ} (h : l.min? = some a) :
    ∀ b ∈ l, a ≤ b :=
  fun b hb => (List.le_min?_iff (fun _ _ _ => le_min_iff) h).mp (le_refl a) b hb

theorem max?_upper_bound {l : List ℚ} {a : ℚ} (h : l.max? = some a) :
    ∀ b ∈ l, b ≤ a :=
  fun b hb => (List.max?_le_iff (fun _ _ _ => max_le_iff) h).mp (le_refl a) b hb

theorem le_avg_of_lower_bound {l : List ℚ} {m : ℚ} (hne : l ≠ [])
    (hlb : ∀ t ∈ l, m ≤ t) : m ≤ l.sum / (l.length : ℚ) := by
  have hpos : (0 : ℚ) < (l.length : ℚ) := by
    exact_mod_cast List.length_pos.mpr hne
  rw [le_div_iff₀ hpos]
  calc m * (l.length : ℚ) = (l.length : ℚ) * m := mul_comm _ _
    _ = l.length • m := (nsmul_eq_mul _ _).symm
    _ ≤ l.sum := List.card_nsmul_le_sum _ _ hlb

theorem avg_le_of_upper_bound {l : List ℚ} {m : ℚ} (hne : l ≠ [])
    (hub : ∀ t ∈ l, t ≤ m) : l.sum / (l.length : ℚ) ≤ m := by
  have hpos : (0 : ℚ) < (l.length : ℚ) := by
    exact_mod_cast List.length_pos.mpr hne
  rw [div_le_iff₀ hpos]
  calc l.sum ≤ l.length • m := List.sum_le_card_nsmul _ _ hub
    _ = (l.length : ℚ) * m := nsmul_eq_mul _ _
    _ = m * (l.length : ℚ) := mul_comm _ _

theorem bucket_temps_ne_nil (items : List ForecastItem) (d : String) (b : Bucket)
    (h : findBucket d (forecastByDay items) = some b) : b.temps ≠ [] := by
  have hb := (bucket_fields items d b h).1
  rw [findBucket_forecastByDay] at h
  rcases he : itemsOn d items with _ | ⟨it, rest⟩
  · rw [he] at h
    simp [bucketOf] at h
  · rw [hb, he]
    simp

/-! ### Example data for witnesses and counterexamples -/

/-- A 3-hour sample on 2025-03-01. -/
def sampleA : ForecastItem :=
  ⟨1740787200, "2025-03-01 00:00:00", ⟨10, 8, 12, 1013, 60⟩,
    [⟨802, "Clouds", "scattered clouds", "03d"⟩], ⟨0⟩, ⟨3, 180⟩⟩

/-- A second sample on the same date. -/
def sampleB : ForecastItem :=
  ⟨1740798000, "2025-03-01 03:00:00", ⟨14, 9, 15, 1013, 55⟩,
    [⟨500, "Rain", "light rain", "10d"⟩], ⟨20⟩, ⟨4, 190⟩⟩

/-- A sample on the following date. -/
def sampleC : ForecastItem :=
  ⟨1740873600, "2025-03-02 00:00:00", ⟨7, 5, 9, 1010, 70⟩,
    [⟨801, "Clouds", "few clouds", "02d"⟩], ⟨40⟩, ⟨5, 200⟩⟩

/-- A small upstream sample list spanning two distinct dates. -/
def exItems : List ForecastItem := [sampleA, sampleB, sampleC]

/-- The bucket the fold produces for 2025-03-01 from `exItems`. -/
def exBucket : Bucket := ⟨[10, 14], ["scattered clouds", "light rain"], 8, 15⟩

/-- City metadata used in concrete responses. -/
def tokyoCity : City := ⟨1850144, "Tokyo", ⟨35, 139⟩, "JP", 32400⟩

/-- A sample whose only weather entry carries the empty-string description. -/
def blankDescItem : ForecastItem :=
  ⟨1740787200, "2025-03-01 00:00:00", ⟨10, 8, 12, 1013, 60⟩,
    [⟨800, "Clear", "", "01d"⟩], ⟨0⟩, ⟨3, 180⟩⟩

/-- A malformed sample whose `temp_min` exceeds both `temp` and `temp_max`. -/
def invertedItem : ForecastItem :=
  ⟨1740787200, "2025-03-01 00:00:00", ⟨0, 100, 0, 1013, 60⟩,
    [⟨800, "Clear", "clear sky", "01d"⟩], ⟨0⟩, ⟨3, 180⟩⟩

/-! ### Claim theorems -/

/-- C1: for every bucket of the aggregation, `temps` is exactly the
instantaneous `temp` fields of that date's samples in arrival order (so
the displayed average is the rounded mean of those), the running `min`
is the minimum of the samples' `temp_min` fields and the running `max`
the maximum of their `temp_max` fields — the distinct upstream fields,
not the instantaneous `temp`. -/
theorem bucketStats (items : List ForecastItem) (d : String) (b : Bucket)
    (h : findBucket d (forecastByDay items) = some b) :
    b.temps = (itemsOn d items).map (fun it => it.main.temp)
    ∧ ((itemsOn d items).map (fun it => it.main.temp_min)).min? = some b.min
    ∧ ((itemsOn d items).map (fun it => it.main.temp_max)).max? = some b.max
    ∧ dayAvg b = jsRound (b.temps.sum / (b.temps.length : ℚ)) :=
  ⟨(bucket_fields items d b h).1, (bucket_fields items d b h).2.2.1,
    (bucket_fields items d b h).2.2.2, rfl⟩

/-- Witness for C1 at a concrete two-sample bucket. -/
theorem bucketStats_witness :
    findBucket "2025-03-01" (forecastByDay exItems) = some exBucket
    ∧ (exBucket.temps = (itemsOn "2025-03-01" exItems).map (fun it => it.main.temp)
      ∧ ((itemsOn "2025-03-01" exItems).map (fun it => it.main.temp_min)).min?
          = some exBucket.min
      ∧ ((itemsOn "2025-03-01" exItems).map (fun it => it.main.temp_max)).max?
          = some exBucket.max
      ∧ dayAvg exBucket = jsRound (exBucket.temps.sum / (exBucket.temps.length : ℚ))) :=
  ⟨by decide, bucketStats exItems "2025-03-01" exBucket (by decide)⟩

/-- C2: for every sample list and valid `days` in `[1,5]`, the number of
emitted day lines is `min days (number of distinct dates)`, the selected
date keys are in lexicographically sorted order, and the output is
capped at `days`. -/
theorem dayCount (items : List ForecastItem) (days : ℕ)
    (h1 : 1 ≤ days) (h5 : days ≤ 5) :
    (forecastLines items days).length = Nat.min days (((items.map dateOf).dedup).length)
    ∧ List.Sorted (fun a b : String => a ≤ b) (selectedDates items days)
    ∧ (forecastLines items days).length ≤ days := by
  have hlen : (forecastLines items days).length = (selectedDates items days).length :=
    List.length_map _ _
  refine ⟨?_, selectedDates_sorted items days, ?_⟩
  · rw [hlen, selectedDates_length]
  · rw [hlen, selectedDates_length]
    exact Nat.min_le_left _ _

/-- Witness for C2 at `days = 2` over a list with two distinct dates. -/
theorem dayCount_witness :
    1 ≤ 2 ∧ 2 ≤ 5
    ∧ ((forecastLines exItems 2).length = Nat.min 2 (((exItems.map dateOf).dedup).length)
      ∧ List.Sorted (fun a b : String => a ≤ b) (selectedDates exItems 2)
      ∧ (forecastLines exItems 2).length ≤ 2) :=
  ⟨by decide, by decide, dayCount exItems 2 (by decide) (by decide)⟩

/-- C3: the interval count requested upstream is `min(days * 8, 40)`;
an omitted `days` defaults to 3 giving 24 intervals, `days = 5` gives
40, and the count never exceeds the upstream cap of 40. -/
theorem intervalCount :
    (∀ d : ℕ, intervals d = Nat.min (d * 8) 40)
    ∧ intervals (handlerDays none) = 24
    ∧ intervals (handlerDays (some 5)) = 40
    ∧ (∀ d : ℕ, intervals d ≤ 40) :=
  ⟨fun _ => rfl, by decide, by decide, fun _ => Nat.min_le_right _ _⟩

/-- C4 counterexample: a bucket whose first (and only) collected
description is the empty string is emitted with `"clear sky"`, not with
the first description encountered. -/
theorem firstDesc_cex :
    findBucket "2025-03-01" (forecastByDay [blankDescItem]) = some ⟨[10], [""], 8, 12⟩
    ∧ dayDesc ⟨[10], [""], 8, 12⟩ = "clear sky"
    ∧ ("" : String) ≠ "clear sky" := by decide

/-- C4 (amended): a bucket's collected descriptions are the first
weather entry's description of each of its samples in arrival order;
the emitted description is the first collected one when it is non-empty
(JavaScript truthiness), while a bucket with no collected description —
or whose first collected description is the empty string — is emitted
with the literal `"clear sky"`. -/
theorem firstDesc (items : List ForecastItem) (d : String) (b : Bucket)
    (h : findBucket d (forecastByDay items) = some b) :
    b.descs = (itemsOn d items).filterMap
        (fun it => (it.weather.head?).map (fun w => w.description))
    ∧ (∀ s, b.descs.head? = some s → s ≠ "" → dayDesc b = s)
    ∧ (b.descs.head? = none → dayDesc b = "clear sky")
    ∧ (b.descs.head? = some "" → dayDesc b = "clear sky") := by
  refine ⟨(bucket_fields items d b h).2.1, ?_, ?_, ?_⟩
  · intro s hs hne
    simp [dayDesc, hs, hne]
  · intro hs
    simp [dayDesc, hs]
  · intro hs
    simp [dayDesc, hs]

/-- Witness for C4 at a bucket whose first description is non-empty. -/
theorem firstDesc_witness :
    findBucket "2025-03-01" (forecastByDay exItems) = some exBucket
    ∧ dayDesc exBucket = "scattered clouds" :=
  ⟨by decide, (firstDesc exItems "2025-03-01" exBucket (by decide)).2.1
    "scattered clouds" (by decide) (by decide)⟩

/-- C7 counterexample: an empty upstream sample list with `days = 3`
does not yield any error report — the second handler variant returns
the ordinary forecast header with zero day lines, a text that does not
even contain the substring `"Error"`. -/
theorem aggregatorSafety_cex :
    firstText (handler2 "Paris" none 3 (HttpOutcome.httpResponse 200 "OK"
        (Except.ok ⟨"200", "", 0, [], tokyoCity⟩)))
      = "🌤️ Weather forecast for Tokyo, JP:\n"
    ∧ ¬ List.IsInfix "Error".data ("🌤️ Weather forecast for Tokyo, JP:\n").data := by
  with_unfolding_all decide

/-- C7 (amended): malformed aggregator input cannot crash the pipeline:
every bucket the fold emits holds at least one temperature sample, so
the average's divisor is never zero; and an empty sample list yields
the forecast header with zero day lines (a success-shaped text, not an
error report). -/
theorem aggregatorSafety :
    (∀ (items : List ForecastItem) (d : String) (b : Bucket),
        findBucket d (forecastByDay items) = some b →
          b.temps ≠ [] ∧ (b.temps.length : ℚ) ≠ 0)
    ∧ (∀ (cityMeta : City) (msg : String) (cnt : ℤ) (loc : String) (days : ℕ),
        renderForecast ⟨"200", msg, cnt, [], cityMeta⟩ loc days
          = "🌤️ Weather forecast for " ++ (cityMeta.name ++ ", " ++ cityMeta.country)
            ++ ":\n") := by
  constructor
  · intro items d b h
    have hne := bucket_temps_ne_nil items d b h
    refine ⟨hne, ?_⟩
    have : b.temps.length ≠ 0 := fun h0 => hne (List.length_eq_zero.mp h0)
    exact_mod_cast this
  · intro cityMeta msg cnt loc days
    show "🌤️ Weather forecast for " ++ (cityMeta.name ++ ", " ++ cityMeta.country)
        ++ ":\n" ++ String.intercalate "\n" (forecastLines [] days) = _
    simp [forecastLines, selectedDates, forecastByDay, String.intercalate]

/-- Witness for C7 at a concrete bucket and a concrete empty response. -/
theorem aggregatorSafety_witness :
    findBucket "2025-03-01" (forecastByDay exItems) = some exBucket
    ∧ (exBucket.temps ≠ [] ∧ (exBucket.temps.length : ℚ) ≠ 0)
    ∧ renderForecast ⟨"200", "", 0, [], tokyoCity⟩ "Paris" 3
        = "🌤️ Weather forecast for " ++ (tokyoCity.name ++ ", " ++ tokyoCity.country)
          ++ ":\n" :=
  ⟨by decide, aggregatorSafety.1 exItems "2025-03-01" exBucket (by decide),
    aggregatorSafety.2 tokyoCity "" 0 "Paris" 3⟩

/-- C9 counterexample: the code never relates `temp_min`, `temp` and
`temp_max`; a sample with `temp_min = 100` but `temp = temp_max = 0`
produces a day summary whose displayed minimum (100) exceeds the
displayed average (0) by far more than the ±1 rounding tolerance. -/
theorem tempOrder_cex :
    findBucket "2025-03-01" (forecastByDay [invertedItem])
        = some ⟨[0], ["clear sky"], 100, 0⟩
    ∧ ¬ (jsRound (⟨[0], ["clear sky"], 100, 0⟩ : Bucket).min
          ≤ dayAvg ⟨[0], ["clear sky"], 100, 0⟩ + 1) := by
  with_unfolding_all decide

/-- C9 (amended): under the upstream well-formedness invariant that each
sample satisfies `temp_min ≤ temp ≤ temp_max`, every day summary's
rounded minimum is ≤ its rounded average and the rounded average is ≤
its rounded maximum, within the claimed ±1 tolerance. -/
theorem tempOrder (items : List ForecastItem) (d : String) (b : Bucket)
    (hw : ∀ it ∈ items, it.main.temp_min ≤ it.main.temp ∧ it.main.temp ≤ it.main.temp_max)
    (h : findBucket d (forecastByDay items) = some b) :
    jsRound b.min ≤ dayAvg b + 1 ∧ dayAvg b ≤ jsRound b.max + 1 := by
  obtain ⟨htemps, _, hmin, hmax⟩ := bucket_fields items d b h
  have hne : b.temps ≠ [] := bucket_temps_ne_nil items d b h
  have hlb : ∀ t ∈ b.temps, b.min ≤ t := by
    intro t ht
    rw [htemps] at ht
    rcases List.mem_map.mp ht with ⟨it, hit, rfl⟩
    exact (min?_lower_bound hmin _ (List.mem_map_of_mem _ hit)).trans
      (hw it (List.mem_of_mem_filter hit)).1
  have hub : ∀ t ∈ b.temps, t ≤ b.max := by
    intro t ht
    rw [htemps] at ht
    rcases List.mem_map.mp ht with ⟨it, hit, rfl⟩
    exact (hw it (List.mem_of_mem_filter hit)).2.trans
      (max?_upper_bound hmax _ (List.mem_map_of_mem _ hit))
  have havg1 := jsRound_mono (le_avg_of_lower_bound hne hlb)
  have havg2 := jsRound_mono (avg_le_of_upper_bound hne hub)
  rw [dayAvg]
  omega

/-- Witness for C9 at a well-formed single-sample list. -/
theorem tempOrder_witness :
    (∀ it ∈ [sampleA], it.main.temp_min ≤ it.main.temp ∧ it.main.temp ≤ it.main.temp_max)
    ∧ findBucket "2025-03-01" (forecastByDay [sampleA])
        = some ⟨[10], ["scattered clouds"], 8, 12⟩
    ∧ (jsRound (⟨[10], ["scattered clouds"], 8, 12⟩ : Bucket).min
          ≤ dayAvg ⟨[10], ["scattered clouds"], 8, 12⟩ + 1
      ∧ dayAvg ⟨[10], ["scattered clouds"], 8, 12⟩
          ≤ jsRound (⟨[10], ["scattered clouds"], 8, 12⟩ : Bucket).max + 1) :=
  ⟨by decide, by decide,
    tempOrder [sampleA] "2025-03-01" ⟨[10], ["scattered clouds"], 8, 12⟩
      (by decide) (by decide)⟩

/-- C5: classification of the HTTP outcome by the first handler
variant: 404 yields exactly the could-not-find text for the constructed
location, 401 yields exactly the invalid-key text, any other non-2xx
status yields a message containing the status text, and a 2xx response
whose payload's `cod` is not `"200"` yields an error message containing
the payload's `message` field. -/
theorem httpClassification :
    (∀ (city : String) (country : Option String) (days : ℕ) (st : String)
        (body : Except String ForecastResponse) (geo : GeoOutcome),
        handler1 city country days (.httpResponse 404 st body) geo
          = ⟨[.text ("❌ Could not find weather data for "
              ++ mkLocation city country ++ ".")]⟩)
    ∧ (∀ (city : String) (country : Option String) (days : ℕ) (st : String)
        (body : Except String ForecastResponse) (geo : GeoOutcome),
        handler1 city country days (.httpResponse 401 st body) geo
          = ⟨[.text "🔑 Invalid API key."]⟩)
    ∧ (∀ (city : String) (country : Option String) (days : ℕ) (status : ℕ)
        (st : String) (body : Except String ForecastResponse) (geo : GeoOutcome),
        responseOk status = false → status ≠ 404 → status ≠ 401 →
        handler1 city country days (.httpResponse status st body) geo
            = ⟨[.text ("API Error: " ++ st)]⟩
          ∧ List.IsInfix st.data (("API Error: " ++ st).data))
    ∧ (∀ (city : String) (country : Option String) (days : ℕ) (status : ℕ)
        (st : String) (data : ForecastResponse) (geo : GeoOutcome),
        responseOk status = true → data.cod ≠ "200" →
        ∃ t, handler1 city country days (.httpResponse status st (.ok data)) geo
            = ⟨[.text t]⟩
          ∧ List.IsInfix data.message.data t.data) := by
  refine ⟨fun city country days st body geo => rfl,
    fun city country days st body geo => rfl, ?_, ?_⟩
  · intro city country days status st body geo hok h404 h401
    refine ⟨?_, ?_⟩
    · simp [handler1, handlerBody1, hok, h404, h401]
    · rw [String.data_append]
      exact (List.suffix_append _ _).isInfix
  · intro city country days status st data geo hok hcod
    refine ⟨"Error: " ++
      (if data.message = "" then "Failed to fetch weather data" else data.message), ?_, ?_⟩
    · simp [handler1, handlerBody1, hok, hcod]
    · by_cases hm : data.message = ""
      · rw [hm]
        simp
      · rw [if_neg hm, String.data_append]
        exact (List.suffix_append _ _).isInfix

/-- Witness for C5 at a 500 response and at a 2xx payload with
`cod = "404"`. -/
theorem httpClassification_witness :
    responseOk 500 = false
    ∧ (handler1 "Paris" (some "FR") 3
          (HttpOutcome.httpResponse 500 "Internal Server Error" (Except.error "x"))
          (GeoOutcome.geoOk [])
        = ⟨[ContentBlock.text ("API Error: " ++ "Internal Server Error")]⟩
      ∧ List.IsInfix ("Internal Server Error").data
          (("API Error: " ++ "Internal Server Error").data))
    ∧ (∃ t, handler1 "Paris" none 3 (HttpOutcome.httpResponse 200 "OK"
          (Except.ok ⟨"404", "city not found", 0, [], tokyoCity⟩)) (GeoOutcome.geoOk [])
        = ⟨[ContentBlock.text t]⟩
      ∧ List.IsInfix "city not found".data t.data) :=
  ⟨by decide,
    httpClassification.2.2.1 "Paris" (some "FR") 3 500 "Internal Server Error"
      (Except.error "x") (GeoOutcome.geoOk []) (by decide) (by decide) (by decide),
    httpClassification.2.2.2 "Paris" none 3 200 "OK"
      ⟨"404", "city not found", 0, [], tokyoCity⟩ (GeoOutcome.geoOk [])
      (by decide) (by decide)⟩

/-- C6 counterexample: on a successful outcome the first handler variant
returns TWO content blocks (the forecast text plus a UI resource), not a
single text block. -/
theorem neverThrows_cex :
    (handler1 "Paris" none 3 (HttpOutcome.httpResponse 200 "OK"
        (Except.ok ⟨"200", "", 0, [], tokyoCity⟩))
      (GeoOutcome.geoOk [])).content.length = 2 := by
  with_unfolding_all decide

theorem body1_ok_shape (city : String) (country : Option String) (days : ℕ)
    (o : HttpOutcome) (geo : GeoOutcome) (r : CallToolResult)
    (hb : handlerBody1 city country days o geo = .ok r) :
    ∃ t rest, r.content = ContentBlock.text t :: rest := by
  rcases o with msg | ⟨status, st, body⟩
  · simp [handlerBody1] at hb
  · simp only [handlerBody1] at hb
    split at hb
    · split at hb
      · simp only [Except.ok.injEq] at hb
        subst hb
        exact ⟨_, _, rfl⟩
      · split at hb <;>
          (simp only [Except.ok.injEq] at hb; subst hb; exact ⟨_, _, rfl⟩)
    · split at hb
      · simp at hb
      · split at hb
        · simp only [Except.ok.injEq] at hb
          subst hb
          exact ⟨_, _, rfl⟩
        · split at hb
          · split at hb
            · simp at hb
            · simp only [Except.ok.injEq] at hb
              subst hb
              exact ⟨_, _, rfl⟩
          · simp only [Except.ok.injEq] at hb
            subst hb
            exact ⟨_, _, rfl⟩

/-- C6 (amended): for every input and upstream outcome — success, any
HTTP error status, malformed payload, or transport failure — both
handler variants return a successful result whose content list starts
with a text block; the second variant's content is always exactly one
text block, while the first variant appends a UI resource block on its
success path. -/
theorem neverThrows (city : String) (country : Option String) (days : ℕ)
    (o : HttpOutcome) (geo : GeoOutcome) :
    (∃ t rest, (handler1 city country days o geo).content = ContentBlock.text t :: rest)
    ∧ (∃ t, (handler2 city country days o).content = [ContentBlock.text t]) := by
  constructor
  · unfold handler1
    rcases hb : handlerBody1 city country days o geo with msg | r
    · exact ⟨_, _, rfl⟩
    · exact body1_ok_shape city country days o geo r hb
  · exact ⟨_, rfl⟩

/-- Whether the first variant's `data.cod` check passes whenever the
payload parses on a 2xx status. -/
def codOk : HttpOutcome → Prop
  | .httpResponse status _ (.ok data) => responseOk status = true → data.cod = "200"
  | _ => True

/-- Whether the fallback geocode call of the first variant, when it
would be triggered (2xx, `cod` check aside, coordinates zero), does not
throw. -/
def geoAvailable : HttpOutcome → GeoOutcome → Prop
  | .httpResponse status _ (.ok data), geo =>
      responseOk status = true →
      (data.city.coord.lat = 0 ∨ data.city.coord.lon = 0) →
      ∃ es, geo = .geoOk es
  | _, _ => True

/-- C10 counterexample: on a 2xx response whose payload carries
`cod = "404"`, the first variant reports the payload error while the
second variant renders a forecast — their texts differ. -/
theorem variantsAgree_cex :
    firstText (handler1 "Paris" none 3 (HttpOutcome.httpResponse 200 "OK"
        (Except.ok ⟨"404", "city not found", 0, [], tokyoCity⟩)) (GeoOutcome.geoOk []))
      = "Error: city not found"
    ∧ firstText (handler2 "Paris" none 3 (HttpOutcome.httpResponse 200 "OK"
        (Except.ok ⟨"404", "city not found", 0, [], tokyoCity⟩)))
      = "🌤️ Weather forecast for Tokyo, JP:\n"
    ∧ ("Error: city not found" : String) ≠ "🌤️ Weather forecast for Tokyo, JP:\n" := by
  with_unfolding_all decide

/-- C10 (amended): the two handler variants render the same result text
for every identical input and upstream outcome in which a parsed 2xx
payload carries `cod = "200"` and the first variant's geocode fallback,
when triggered by zero coordinates, does not throw; they differ exactly
where the first variant's extra `cod` check (or a geocode throw) kicks
in. -/
theorem variantsAgree (city : String) (country : Option String) (days : ℕ)
    (o : HttpOutcome) (geo : GeoOutcome)
    (hcod : codOk o) (hgeo : geoAvailable o geo) :
    firstText (handler1 city country days o geo)
      = firstText (handler2 city country days o) := by
  rcases o with msg | ⟨status, st, body⟩
  · rfl
  · rcases hok : responseOk status with _ | _
    · by_cases h404 : status = 404
      · subst h404
        simp [handler1, handlerBody1, handler2, handlerBody2, hok, firstText]
      · by_cases h401 : status = 401
        · subst h401
          simp [handler1, handlerBody1, handler2, handlerBody2, hok, h404, firstText]
        · simp [handler1, handlerBody1, handler2, handlerBody2, hok, h404, h401, firstText]
    · rcases body with msg | data
      · simp [handler1, handlerBody1, handler2, handlerBody2, hok, firstText]
      · have hc : data.cod = "200" := hcod hok
        by_cases hz : data.city.coord.lat = 0 ∨ data.city.coord.lon = 0
        · obtain ⟨es, rfl⟩ := hgeo hok hz
          simp [handler1, handlerBody1, handler2, handlerBody2, hok, hc, hz, firstText]
        · simp [handler1, handlerBody1, handler2, handlerBody2, hok, hc, hz, firstText]

/-- A successful outcome with zero coordinates, triggering the geocode
fallback of the first variant. -/
def okOutcome : HttpOutcome :=
  .httpResponse 200 "OK" (.ok ⟨"200", "", 0, [], ⟨1, "Tokyo", ⟨0, 0⟩, "JP", 0⟩⟩)

/-- Witness for C10 at a successful zero-coordinate outcome with a
non-throwing geocode call. -/
theorem variantsAgree_witness :
    codOk okOutcome ∧ geoAvailable okOutcome (GeoOutcome.geoOk [])
    ∧ firstText (handler1 "Paris" none 3 okOutcome (GeoOutcome.geoOk []))
        = firstText (handler2 "Paris" none 3 okOutcome) :=
  ⟨fun _ => rfl, fun _ _ => ⟨[], rfl⟩,
    variantsAgree "Paris" none 3 okOutcome (GeoOutcome.geoOk [])
      (fun _ => rfl) (fun _ _ => ⟨[], rfl⟩)⟩

/-- C8 counterexample: the zod chain
`z.number().min(1).max(5).optional().default(3)` carries no `.int()`
step, so the non-integer value `5/2` passes validation and reaches the
handler. -/
theorem daysSchema_cex :
    parseDays (some (JsonValue.num (Rat.divInt 5 2))) = some (Rat.divInt 5 2)
    ∧ (Rat.divInt 5 2).den ≠ 1 := by
  with_unfolding_all decide

/-- C8 (amended): the schema layer rejects wrong-typed `days` values and
numbers outside `[1,5]`, and defaults an absent `days` to 3 — but it
does NOT enforce integrality: every number in `[1,5]`, integer or not,
is passed through to the handler. -/
theorem daysSchema :
    parseDays none = some 3
    ∧ (∀ s, parseDays (some (JsonValue.str s)) = none)
    ∧ (∀ bv, parseDays (some (JsonValue.boolVal bv)) = none)
    ∧ parseDays (some JsonValue.nullVal) = none
    ∧ (∀ q : ℚ, 1 ≤ q → q ≤ 5 → parseDays (some (JsonValue.num q)) = some q)
    ∧ (∀ q : ℚ, parseDays (some (JsonValue.num q)) = some q → 1 ≤ q ∧ q ≤ 5)
    ∧ (∃ q : ℚ, q.den ≠ 1 ∧ parseDays (some (JsonValue.num q)) = some q) := by
  refine ⟨rfl, fun s => rfl, fun bv => rfl, rfl, ?_, ?_, ?_⟩
  · intro q h1 h5
    simp [parseDays, h1, h5]
  · intro q h
    by_cases hq : 1 ≤ q ∧ q ≤ 5
    · exact hq
    · simp [parseDays, hq] at h
  · exact ⟨Rat.divInt 5 2, by with_unfolding_all decide, by with_unfolding_all decide⟩

/-- Witness for C8 at the in-range value 4. -/
theorem daysSchema_witness :
    (1 : ℚ) ≤ 4 ∧ (4 : ℚ) ≤ 5 ∧ parseDays (some (JsonValue.num 4)) = some 4 :=
  ⟨by decide, by decide, daysSchema.2.2.2.2.1 4 (by decide) (by decide)⟩

end OpenWeatherMcp
